import Mathlib

/-!
Verification of the `@vyke/results` Result/Option library.

The library has two generations of the Result API plus an Option module:
* `src/result.ts` (namespace `RT` below): class-based Results. `OkImpl` holds a
  `value`; `ErrImpl` extends `Error`, holds an `error` payload, a `message`
  (derived from the payload unless overridden) and, when the payload is itself
  an `Error` instance, an `origin` reference to it.
* `src/index.ts` (namespace `IX` below): plain-object Results
  `{ ok: boolean, value: ... }`.
* the option module (namespace `OPT` below): `Some`/`None` with a shared
  `None` singleton.

Modelling conventions:
* JavaScript runtime values are the inductive `JSVal`. Numbers are modelled as
  integers (no claim involves floats). `okImpl`/`errImpl` are the class
  instances of `result.ts`; `plainError` is a plain `Error` object with its
  `message`. In `errImpl`, `hasOrigin` records whether the constructor set
  `this.origin`; per the `ErrImpl` constructor, `origin` is set exactly when
  the payload is an `Error` instance and then always aliases the payload, so a
  `Bool` carries the full information.
* A function that may `throw` returns `Except JSVal JSVal`: `.ok v` is a normal
  return of `v`, `.error e` is `throw e`.
* A settled promise is its outcome, again `Except JSVal JSVal`: `.ok v` is
  resolution with `v`, `.error e` is rejection with reason `e`. An `async`
  function maps a promise outcome to a promise outcome.
* The `config.verbose` console logging in `index.ts` is a side effect that
  never changes a returned value, so it is not modelled.
-/

/-- A JavaScript runtime value, as far as the library inspects values:
`jsUndefined` is `undefined`; `plainError m` is an `Error` object with message `m`
that is not an `ErrImpl`; `okImpl` and `errImpl` are the `result.ts` class
instances (`ErrImpl` is also an `Error` instance). -/
inductive JSVal : Type where
  | jsUndefined : JSVal
  | jsBool : Bool → JSVal
  | num : Int → JSVal
  | str : String → JSVal
  | plainError : String → JSVal
  | okImpl : JSVal → JSVal
  | errImpl : JSVal → String → Bool → JSVal
deriving DecidableEq, Repr

namespace JSVal

/-- `v instanceof Error`: true for plain `Error` objects and for `ErrImpl`
instances (the class extends `Error`). -/
def isErrorObj : JSVal → Bool
  | .plainError _ => true
  | .errImpl _ _ _ => true
  | _ => false

/-- The `.message` property of an `Error` instance (`""` otherwise, matching
an absent property read as a string only on `Error`s here). -/
def errorMessage : JSVal → String
  | .plainError m => m
  | .errImpl _ m _ => m
  | _ => ""

/-- `String(v)` coercion, to the extent the library uses it (deriving an
`ErrImpl` message from a non-`Error` payload). `Error.prototype.toString`
yields `"Error: <message>"`, or `"Error"` when the message is empty; objects
stringify as `"[object Object]"`. -/
def jsToString : JSVal → String
  | .jsUndefined => "undefined"
  | .jsBool b => if b then "true" else "false"
  | .num n => toString n
  | .str s => s
  | .plainError m => if m = "" then "Error" else "Error: " ++ m
  | .errImpl _ m _ => if m = "" then "Error" else "Error: " ++ m
  | .okImpl _ => "[object Object]"

/-- `typeof v === 'string'`. -/
def isString : JSVal → Bool
  | .str _ => true
  | _ => false

end JSVal

/-! ## `src/result.ts` (namespace `RT`) -/

namespace RT

/-- `Ok(value)`: `new OkImpl(value)`. -/
def Ok (value : JSVal) : JSVal := .okImpl value

/-- `Err(error, message?)`: `new ErrImpl(error, message)`. The `ErrImpl`
constructor: if the payload is an `Error` instance, the message defaults to
the payload's message and `origin` is set to the payload; otherwise the
message defaults to `String(error)` and `origin` stays unset. -/
def Err (error : JSVal) (message : Option String) : JSVal :=
  if JSVal.isErrorObj error then
    .errImpl error (message.getD (JSVal.errorMessage error)) true
  else
    .errImpl error (message.getD (JSVal.jsToString error)) false

/-- `isOk(result)`: `result instanceof OkImpl`. -/
def isOk : JSVal → Bool
  | .okImpl _ => true
  | _ => false

/-- `isErr(result)`: `result instanceof ErrImpl`. -/
def isErr : JSVal → Bool
  | .errImpl _ _ _ => true
  | _ => false

/-- A value is a Result when it is an `OkImpl` or an `ErrImpl` instance. -/
def isResult (v : JSVal) : Bool := isOk v || isErr v

/-- The `.value` property read (`undefined` when absent). -/
def okValue : JSVal → JSVal
  | .okImpl v => v
  | _ => .jsUndefined

/-- The `.error` property of an `ErrImpl` (`none` models an absent property). -/
def errError : JSVal → Option JSVal
  | .errImpl e _ _ => some e
  | _ => none

/-- `unwrap(result)`: `if (isErr(result)) throw result; return result.value`. -/
def unwrap (result : JSVal) : Except JSVal JSVal :=
  if isErr result then .error result else .ok (okValue result)

/-- `unwrapOr(result, defaultValue)`. -/
def unwrapOr (result defaultValue : JSVal) : JSVal :=
  if isOk result then okValue result else defaultValue

/-- `mapInto(result, fn)`: apply `fn` on `Ok`, return the `Err` unchanged. -/
def mapInto (result : JSVal) (fn : JSVal → JSVal) : JSVal :=
  if isOk result then fn (okValue result) else result

/-- The `MapHelper` chaining class: its one field is the current result. -/
structure MapHelper : Type where
  result : JSVal
deriving DecidableEq, Repr

/-- `MapHelper.into(fn)`: `mapInto` the held result, keep chaining. (The
source mutates `this.result` and returns `this`; state passing models that.) -/
def MapHelper.into (h : MapHelper) (fn : JSVal → JSVal) : MapHelper :=
  MapHelper.mk (mapInto h.result fn)

/-- `MapHelper.get()`. -/
def MapHelper.get (h : MapHelper) : JSVal := h.result

/-- `map(result)`: `new MapHelper(result)`. -/
def map (result : JSVal) : MapHelper := MapHelper.mk result

/-- `capture(fn)`: the argument is the run of `fn()` — a normal return `.ok v`
or a thrown value `.error e`. `try { return Ok(fn()) } catch (error) { if
(error instanceof ErrImpl) return error; return Err(error) }`. -/
def capture (run : Except JSVal JSVal) : JSVal :=
  match run with
  | .ok v => Ok v
  | .error e => if isErr e then e else Err e Option.none

/-- `to(promise)`: the argument is the awaited promise's outcome; the value is
the outcome of the promise `to` returns. `try { return Ok(await promise) }
catch (error) { if (error instanceof ErrImpl) return error; return
Err(error) }`. -/
def «to» (promise : Except JSVal JSVal) : Except JSVal JSVal :=
  match promise with
  | .ok data => .ok (Ok data)
  | .error e => .ok (if isErr e then e else Err e Option.none)

/-- `andThen(result, fn)`: apply `fn` on `Ok`, return the `Err` itself (the
same reference) otherwise. -/
def andThen (result : JSVal) (fn : JSVal → JSVal) : JSVal :=
  if isOk result then fn (okValue result) else result

/-- `next(nextFn, message?)` applied to an incoming result. `nextFn` may
return or reject, hence `Except`-valued. Source: if the incoming result is
`Ok`, `await nextFn(result.value)`; if that result `isErr` and `if (message)`
(JS truthiness: `undefined` and `""` are falsy), return
`Err(new Error(message))`; otherwise return `nextFn`'s result. An incoming
`Err` is returned unchanged. -/
def next (nextFn : JSVal → Except JSVal JSVal) (message : Option String)
    (result : JSVal) : Except JSVal JSVal :=
  if isOk result then
    match nextFn (okValue result) with
    | .error e => .error e
    | .ok nextResult =>
      if isErr nextResult then
        match message with
        | Option.some m =>
          if m == "" then .ok nextResult
          else .ok (Err (.plainError m) Option.none)
        | Option.none => .ok nextResult
      else .ok nextResult
  else .ok result

/-- `toUnwrapOr(promise, defaultValue)`: `try { return unwrapOr(await
promise, defaultValue) } catch { return defaultValue }`. -/
def toUnwrapOr (promise : Except JSVal JSVal) (defaultValue : JSVal) :
    Except JSVal JSVal :=
  match promise with
  | .ok data => .ok (unwrapOr data defaultValue)
  | .error _ => .ok defaultValue

end RT

/-! ## `src/index.ts` (namespace `IX`) -/

namespace IX

/-- The plain-object Result of `index.ts`: `{ ok: boolean, value }` (`value`
holds the success value when `ok` and the error payload when not). -/
structure IRes : Type where
  ok : Bool
  value : JSVal
deriving DecidableEq, Repr

/-- `Ok(value)` of `index.ts`. -/
def Ok (value : JSVal) : IRes := IRes.mk true value

/-- `Err(error)` of `index.ts`. -/
def Err (error : JSVal) : IRes := IRes.mk false error

/-- `unwrap(result)` of `index.ts`: return `result.value` when `ok`, else
`throw result.value` (the payload itself is thrown, no wrapper). -/
def unwrap (result : IRes) : Except JSVal JSVal :=
  if result.ok then .ok result.value else .error result.value

/-- `unwrapOr(result, defaultValue)` of `index.ts`. -/
def unwrapOr (result : IRes) (defaultValue : JSVal) : JSVal :=
  if result.ok then result.value else defaultValue

/-- `expect(result, message)` of `index.ts`:
`throw typeof message === 'string' ? new Error(message) : message`. -/
def expect (result : IRes) (message : JSVal) : Except JSVal JSVal :=
  if result.ok then .ok result.value
  else .error (match message with
    | .str s => .plainError s
    | m => m)

/-- `to(promise)` of `index.ts`: wrap resolution as `Ok`, wrap any rejection
reason as `Err` (no `ErrImpl` special case in this generation; the verbose
logging is a side effect only). -/
def «to» (promise : Except JSVal JSVal) : Except JSVal IRes :=
  match promise with
  | .ok data => .ok (Ok data)
  | .error e => .ok (Err e)

/-- `andThen(result, fn)` of `index.ts`. -/
def andThen (result : IRes) (fn : JSVal → IRes) : IRes :=
  if result.ok then fn result.value else result

/-- `toUnwrapOr(promise, defaultValue)` of `index.ts`:
`unwrapOr(await to(promise), defaultValue)` (a rejection of `to`'s promise
would propagate, but `to` always resolves). -/
def toUnwrapOr (promise : Except JSVal JSVal) (defaultValue : JSVal) :
    Except JSVal JSVal :=
  match «to» promise with
  | .ok data => .ok (unwrapOr data defaultValue)
  | .error e => .error e

end IX

/-! ## the option module (namespace `OPT`) -/

namespace OPT

/-- An Option value: a `SomeImpl` instance with its value, or the `NoneImpl`
instance. -/
inductive JSOption : Type where
  | someImpl : JSVal → JSOption
  | noneImpl : JSOption
deriving DecidableEq, Repr

/-- `Some(value)`: `new SomeImpl(value)`. -/
def Some (value : JSVal) : JSOption := .someImpl value

/-- The module-level `const none = new NoneImpl()` singleton. -/
def noneConst : JSOption := .noneImpl

/-- `None()`: returns the shared module-level singleton. -/
def None : JSOption := noneConst

/-- `isSome(option)`: `option instanceof SomeImpl`. -/
def isSome : JSOption → Bool
  | .someImpl _ => true
  | .noneImpl => false

/-- `isNone(option)`: `option instanceof NoneImpl`. -/
def isNone : JSOption → Bool
  | .someImpl _ => false
  | .noneImpl => true

/-- The `.value` property (a `NoneImpl` holds `undefined`). -/
def optValue : JSOption → JSVal
  | .someImpl v => v
  | .noneImpl => .jsUndefined

/-- `unwrap(option)` of the option module: return the value on `Some`, else
`throw Err('Tried to unwrap a None option')` — the thrown value is an
`ErrImpl` built by `result.ts`'s `Err`. -/
def unwrap (option : JSOption) : Except JSVal JSVal :=
  if isSome option then .ok (optValue option)
  else .error (RT.Err (.str "Tried to unwrap a None option") Option.none)

end OPT

/-! ## Shared helper lemmas -/

/-- An `ErrImpl` is never an `OkImpl`. -/
theorem isOk_of_isErr_false {v : JSVal} (h : RT.isErr v = true) :
    RT.isOk v = false := by
  cases v <;> simp_all [RT.isErr, RT.isOk]

/-- `Err` always builds an `ErrImpl` instance. -/
theorem isErr_Err (e : JSVal) (m : Option String) :
    RT.isErr (RT.Err e m) = true := by
  unfold RT.Err
  split <;> rfl

/-- `Err` stores the given payload in the `.error` field. -/
theorem errError_Err (e : JSVal) (m : Option String) :
    RT.errError (RT.Err e m) = some e := by
  unfold RT.Err
  split <;> rfl

/-- Chaining `into` steps over a helper already holding an `Err` leaves the
helper unchanged, whatever the step functions are. -/
theorem foldl_into_err : ∀ (fns : List (JSVal → JSVal)) (h : RT.MapHelper),
    RT.isErr h.result = true → List.foldl RT.MapHelper.into h fns = h := by
  intro fns
  induction fns with
  | nil => intro h _; rfl
  | cons fn rest ih =>
    intro h hErr
    have hok : RT.isOk h.result = false := isOk_of_isErr_false hErr
    have hstep : RT.MapHelper.into h fn = h := by
      simp [RT.MapHelper.into, RT.mapInto, hok]
    rw [List.foldl_cons, hstep]
    exact ih h hErr

/-! ## Claims -/

/-- Claim C1: for every `x`, `capture` of a function whose body throws via
`unwrap(Err(x))` returns that same thrown `ErrImpl` unchanged (payload `x`,
not re-wrapped); for every thrown value that is not an `ErrImpl` (i.e. not
one produced by `unwrap`, which only ever throws `ErrImpl` instances),
`capture` returns a new `Err` wrapping the thrown value; and `capture`
always returns a Result value — the exception never escapes (in the source,
both `try` and `catch` branches `return`; the `Except`-free return type of
`RT.capture` reflects that it cannot throw). -/
theorem capture_spec :
    (∀ x : JSVal, ∃ w : JSVal,
      RT.unwrap (RT.Err x Option.none) = .error w ∧
      RT.capture (.error w) = w ∧
      RT.isErr (RT.capture (.error w)) = true ∧
      RT.errError (RT.capture (.error w)) = some x) ∧
    (∀ e : JSVal, RT.isErr e = false →
      RT.isErr (RT.capture (.error e)) = true ∧
      RT.errError (RT.capture (.error e)) = some e) ∧
    (∀ run : Except JSVal JSVal, RT.isResult (RT.capture run) = true) := by
  refine ⟨fun x => ⟨RT.Err x Option.none, ?_, ?_, ?_, ?_⟩, fun e he => ⟨?_, ?_⟩, fun run => ?_⟩
  · simp [RT.unwrap, isErr_Err]
  · simp [RT.capture, isErr_Err]
  · simp [RT.capture, isErr_Err]
  · simp [RT.capture, isErr_Err, errError_Err]
  · simp [RT.capture, he, isErr_Err]
  · simp [RT.capture, he, errError_Err]
  · match run with
    | .ok v => simp [RT.capture, RT.isResult, RT.Ok, RT.isOk]
    | .error e =>
      by_cases he : RT.isErr e = true
      · simp [RT.capture, he, RT.isResult]
      · simp only [Bool.not_eq_true] at he
        simp [RT.capture, he, RT.isResult, isErr_Err]

/-- Witness for the hypothesis of the second conjunct of `capture_spec`:
a thrown plain string is wrapped as a fresh `Err` with that payload. -/
theorem capture_spec_witness :
    RT.isErr (.str "boom") = false ∧
    RT.isErr (RT.capture (.error (.str "boom"))) = true ∧
    RT.errError (RT.capture (.error (.str "boom"))) = some (.str "boom") :=
  ⟨rfl, (capture_spec.2.1 (.str "boom") rfl).1, (capture_spec.2.1 (.str "boom") rfl).2⟩

/-- Claim C2: `to` resolves `Ok(v)` for a promise resolving with `v`; an
`ErrImpl`-shaped rejection reason is passed through unchanged (not
double-wrapped); any other rejection reason `e` is wrapped as a fresh
`Err` with payload `e`; and the promise `to` returns always resolves — to a
Result value — and never rejects. (This is the `result.ts` generation of
`to`, the one with the `ResultError` pass-through special case.) -/
theorem to_spec :
    (∀ v : JSVal, RT.«to» (.ok v) = .ok (RT.Ok v)) ∧
    (∀ e m b, RT.«to» (.error (JSVal.errImpl e m b)) = .ok (JSVal.errImpl e m b)) ∧
    (∀ e : JSVal, RT.isErr e = false →
      RT.«to» (.error e) = .ok (RT.Err e Option.none) ∧
      RT.errError (RT.Err e Option.none) = some e) ∧
    (∀ p : Except JSVal JSVal, ∃ r : JSVal,
      RT.«to» p = .ok r ∧ RT.isResult r = true) := by
  refine ⟨fun v => rfl, fun e m b => rfl, fun e he => ⟨?_, errError_Err e Option.none⟩, fun p => ?_⟩
  · simp [RT.«to», he]
  · match p with
    | .ok v => exact ⟨RT.Ok v, rfl, rfl⟩
    | .error e =>
      by_cases he : RT.isErr e = true
      · exact ⟨e, by simp [RT.«to», he], by simp [RT.isResult, he]⟩
      · simp only [Bool.not_eq_true] at he
        exact ⟨RT.Err e Option.none, by simp [RT.«to», he],
          by simp [RT.isResult, isErr_Err]⟩

/-- Witness for the hypothesis of the third conjunct of `to_spec`: a plain
string rejection reason is wrapped as a fresh `Err`. -/
theorem to_spec_witness :
    RT.isErr (.str "nope") = false ∧
    RT.«to» (.error (.str "nope")) = .ok (RT.Err (.str "nope") Option.none) ∧
    RT.errError (RT.Err (.str "nope") Option.none) = some (.str "nope") :=
  ⟨rfl, (to_spec.2.2.1 (.str "nope") rfl).1, (to_spec.2.2.1 (.str "nope") rfl).2⟩

/-- Claim C3: `unwrap(Ok(v))` returns `v` without throwing, and
`unwrap(Err(e))` throws a value whose underlying error payload is exactly
`e` — for `result.ts`, the thrown value is the `ErrImpl` itself with
`.error = e`; for `index.ts`, the thrown value is the payload `e` itself.
Either way the original payload is preserved in the raised exception. -/
theorem unwrap_spec :
    (∀ v : JSVal, RT.unwrap (RT.Ok v) = .ok v) ∧
    (∀ e : JSVal, ∃ w : JSVal,
      RT.unwrap (RT.Err e Option.none) = .error w ∧
      RT.isErr w = true ∧ RT.errError w = some e) ∧
    (∀ v : JSVal, IX.unwrap (IX.Ok v) = .ok v) ∧
    (∀ e : JSVal, IX.unwrap (IX.Err e) = .error e) := by
  refine ⟨fun v => rfl, fun e => ⟨RT.Err e Option.none, ?_, isErr_Err e Option.none,
    errError_Err e Option.none⟩, fun v => rfl, fun e => rfl⟩
  simp [RT.unwrap, isErr_Err]

/-- Claim C4 counterexample: the claim says that whenever `nextFn`'s result
is `Err` and a message argument was supplied, the returned value is a new
`Err` carrying a generic exception with that message. With the supplied
message `""`, the source's `if (message)` truthiness check is false, so the
original `Err` from `nextFn` is returned instead of the promised
`Err(new Error(""))`. -/
theorem next_empty_message_counterexample :
    RT.next (fun _ => .ok (RT.Err (.str "bad") Option.none)) (some "") (RT.Ok (.num 1))
      = .ok (RT.Err (.str "bad") Option.none) ∧
    RT.Err (.str "bad") Option.none ≠ RT.Err (.plainError "") Option.none := by
  exact ⟨rfl, by decide⟩

/-- Claim C4 (amended: "message supplied" must be "non-empty message
supplied", because `if (message)` treats the empty string as absent): an
incoming `Err` is returned unchanged and `nextFn` is never invoked (the
output does not depend on `nextFn`); an incoming `Ok(v)` yields `nextFn(v)`'s
result, except that when that result is `Err` and a non-empty message was
supplied, a new `Err` carrying a generic exception (`new Error(message)`)
is returned and the original payload dropped; with no message supplied the
`Err` from `nextFn` is returned as is. -/
theorem next_spec :
    (∀ (fn : JSVal → Except JSVal JSVal) (msg : Option String) (e : JSVal) (m : String) (b : Bool),
      RT.next fn msg (JSVal.errImpl e m b) = .ok (JSVal.errImpl e m b)) ∧
    (∀ (fn : JSVal → Except JSVal JSVal) (msg : Option String) (v r : JSVal),
      fn v = .ok r → RT.isErr r = false → RT.next fn msg (RT.Ok v) = .ok r) ∧
    (∀ (fn : JSVal → Except JSVal JSVal) (m : String) (v r : JSVal),
      fn v = .ok r → RT.isErr r = true → m ≠ "" →
      RT.next fn (some m) (RT.Ok v) = .ok (RT.Err (.plainError m) Option.none)) ∧
    (∀ (fn : JSVal → Except JSVal JSVal) (v r : JSVal),
      fn v = .ok r → RT.isErr r = true → RT.next fn Option.none (RT.Ok v) = .ok r) := by
  refine ⟨fun fn msg e m b => rfl, fun fn msg v r h hr => ?_, fun fn m v r h hr hm => ?_,
    fun fn v r h hr => ?_⟩
  · simp [RT.next, RT.isOk, RT.Ok, RT.okValue, h, hr]
  · simp [RT.next, RT.isOk, RT.Ok, RT.okValue, h, hr, hm]
  · simp [RT.next, RT.isOk, RT.Ok, RT.okValue, h, hr]

/-- Witness for the hypotheses of `next_spec` (third conjunct): with a
non-empty message `"ctx"` and a step returning an `Err`, the chain yields
the generic `Err(new Error("ctx"))`. -/
theorem next_spec_witness :
    ((fun _ : JSVal => (Except.ok (RT.Err (.str "bad") Option.none) : Except JSVal JSVal)) (.num 1)
      = .ok (RT.Err (.str "bad") Option.none)) ∧
    RT.isErr (RT.Err (.str "bad") Option.none) = true ∧
    ("ctx" : String) ≠ "" ∧
    RT.next (fun _ => .ok (RT.Err (.str "bad") Option.none)) (some "ctx") (RT.Ok (.num 1))
      = .ok (RT.Err (.plainError "ctx") Option.none) :=
  ⟨rfl, rfl, by decide,
    next_spec.2.2.1 (fun _ => .ok (RT.Err (.str "bad") Option.none)) "ctx" (.num 1)
      (RT.Err (.str "bad") Option.none) rfl rfl (by decide)⟩

/-- Claim C5: `andThen(Ok(v), fn)` returns `fn(v)`'s result (in this pure
model, the value being exactly `fn v` is the rendering of "invokes `fn`
exactly once with `v` and returns its result"); `andThen(Err(e), fn)`
returns the incoming `Err` itself — the very same value, for every `fn`, so
`fn` is never invoked. Proved for both API generations. -/
theorem andThen_spec :
    (∀ (v : JSVal) (fn : JSVal → JSVal), RT.andThen (RT.Ok v) fn = fn v) ∧
    (∀ (e : JSVal) (m : String) (b : Bool) (fn : JSVal → JSVal),
      RT.andThen (JSVal.errImpl e m b) fn = JSVal.errImpl e m b) ∧
    (∀ (v : JSVal) (fn : JSVal → IX.IRes), IX.andThen (IX.Ok v) fn = fn v) ∧
    (∀ (e : JSVal) (fn : JSVal → IX.IRes), IX.andThen (IX.Err e) fn = IX.Err e) :=
  ⟨fun _ _ => rfl, fun _ _ _ _ => rfl, fun _ _ => rfl, fun _ _ => rfl⟩

/-- Claim C6: `expect` (the `index.ts` generation, which takes an arbitrary
message value) returns the success value on `Ok`; on `Err` it throws
`new Error(message)` when the message is a plain string, and throws the
message value itself when it is a structured (non-string) value. -/
theorem expect_spec :
    (∀ v msg : JSVal, IX.expect (IX.Ok v) msg = .ok v) ∧
    (∀ (e : JSVal) (s : String), IX.expect (IX.Err e) (.str s) = .error (.plainError s)) ∧
    (∀ e msg : JSVal, JSVal.isString msg = false → IX.expect (IX.Err e) msg = .error msg) := by
  refine ⟨fun v msg => rfl, fun e s => rfl, fun e msg h => ?_⟩
  cases msg <;> simp_all [IX.expect, IX.Err, JSVal.isString]

/-- Witness for the hypothesis of the third conjunct of `expect_spec`: a
structured (non-string) message — here a plain `Error` object — is thrown
directly. -/
theorem expect_spec_witness :
    JSVal.isString (.plainError "typed") = false ∧
    IX.expect (IX.Err (.str "payload")) (.plainError "typed") = .error (.plainError "typed") :=
  ⟨rfl, expect_spec.2.2 (.str "payload") (.plainError "typed") rfl⟩

/-- Claim C7: the identity chain `map(Ok(v)).into(x => Ok(x)).into(x =>
Ok(x)).get()` equals `Ok(v)`; and once a prefix of a chain of `into` steps
has produced an `Err`, appending any further steps leaves the final result
unchanged (so no subsequent step function is invoked and the final result's
error equals the first `Err`'s payload). -/
theorem map_chain_spec :
    (∀ v : JSVal,
      (((RT.map (RT.Ok v)).into (fun x => RT.Ok x)).into (fun x => RT.Ok x)).get = RT.Ok v) ∧
    (∀ (r : JSVal) (fns1 fns2 : List (JSVal → JSVal)),
      RT.isErr (List.foldl RT.MapHelper.into (RT.map r) fns1).get = true →
      (List.foldl RT.MapHelper.into (RT.map r) (fns1 ++ fns2)).get
        = (List.foldl RT.MapHelper.into (RT.map r) fns1).get) := by
  refine ⟨fun v => rfl, fun r fns1 fns2 h => ?_⟩
  rw [List.foldl_append, foldl_into_err fns2 (List.foldl RT.MapHelper.into (RT.map r) fns1) h]

/-- Witness for the hypothesis of the second conjunct of `map_chain_spec`:
a first step producing `Err("boom")` makes the appended identity step a
no-op. -/
theorem map_chain_spec_witness :
    RT.isErr (List.foldl RT.MapHelper.into (RT.map (RT.Ok (.num 1)))
      [fun _ => RT.Err (.str "boom") Option.none]).get = true ∧
    (List.foldl RT.MapHelper.into (RT.map (RT.Ok (.num 1)))
      ([fun _ => RT.Err (.str "boom") Option.none] ++ [fun x => RT.Ok x])).get
      = (List.foldl RT.MapHelper.into (RT.map (RT.Ok (.num 1)))
          [fun _ => RT.Err (.str "boom") Option.none]).get :=
  ⟨rfl, map_chain_spec.2 (RT.Ok (.num 1)) [fun _ => RT.Err (.str "boom") Option.none]
    [fun x => RT.Ok x] rfl⟩

/-- Claim C8: `toUnwrapOr` resolves to the underlying value on success and
to the default on rejection or on an `Err` result, and the promise it
returns always resolves. `index.ts`'s generation takes a promise of a raw
value (resolution with `v` yields `v`, rejection yields the default);
`result.ts`'s generation takes a promise of a Result (`Ok(v)` yields `v`,
an `Err` result or a rejection yields the default). -/
theorem toUnwrapOr_spec :
    (∀ v d : JSVal, IX.toUnwrapOr (.ok v) d = .ok v) ∧
    (∀ e d : JSVal, IX.toUnwrapOr (.error e) d = .ok d) ∧
    (∀ v d : JSVal, RT.toUnwrapOr (.ok (RT.Ok v)) d = .ok v) ∧
    (∀ (e : JSVal) (m : String) (b : Bool) (d : JSVal),
      RT.toUnwrapOr (.ok (JSVal.errImpl e m b)) d = .ok d) ∧
    (∀ e d : JSVal, RT.toUnwrapOr (.error e) d = .ok d) ∧
    (∀ (p : Except JSVal JSVal) (d : JSVal), ∃ x, IX.toUnwrapOr p d = .ok x) ∧
    (∀ (p : Except JSVal JSVal) (d : JSVal), ∃ x, RT.toUnwrapOr p d = .ok x) := by
  refine ⟨fun _ _ => rfl, fun _ _ => rfl, fun _ _ => rfl, fun _ _ _ _ => rfl, fun _ _ => rfl,
    fun p d => ?_, fun p d => ?_⟩
  · match p with
    | .ok v => exact ⟨IX.unwrapOr (IX.Ok v) d, rfl⟩
    | .error e => exact ⟨d, rfl⟩
  · match p with
    | .ok v => exact ⟨RT.unwrapOr v d, rfl⟩
    | .error e => exact ⟨d, rfl⟩

/-- Claim C9: `capture` does not flatten — when the function returns a
Result value `r` without throwing, `capture` yields `Ok(r)`, even when `r`
is itself an `Err` result: the returned `Err` becomes the success payload
of a new `Ok`. -/
theorem capture_no_flatten :
    (∀ r : JSVal, RT.capture (.ok r) = RT.Ok r) ∧
    (∀ (e : JSVal) (m : String) (b : Bool),
      RT.isOk (RT.capture (.ok (JSVal.errImpl e m b))) = true ∧
      RT.okValue (RT.capture (.ok (JSVal.errImpl e m b))) = JSVal.errImpl e m b) :=
  ⟨fun _ => rfl, fun _ _ _ => ⟨rfl, rfl⟩⟩

/-- Claim C10: `unwrap(None())` in the option module throws a value that is
itself an `Err`-tagged Result (`isErr` holds of the thrown value) whose
error payload is the string `'Tried to unwrap a None option'`; and `None()`
returns the shared module-level singleton. -/
theorem option_unwrap_none_spec :
    (∃ w : JSVal, OPT.unwrap OPT.None = .error w ∧ RT.isErr w = true ∧
      RT.errError w = some (.str "Tried to unwrap a None option")) ∧
    OPT.None = OPT.noneConst :=
  ⟨⟨RT.Err (.str "Tried to unwrap a None option") Option.none, rfl,
    isErr_Err _ _, errError_Err _ _⟩, rfl⟩
